import Mathlib

/-!
Shallow embedding of the synthetic EV transportation-network generator of the
deckgl-visualization repository, together with theorems checking the claims of
its specification.

Conventions of the embedding:
* JavaScript numbers are modelled as exact rationals (`ℚ`); the 31-bit masking
  of the seeded PRNG (`& 0x7fffffff`) is modelled as `% 2^31` on `ℕ`.
* The impure `random: () => number` closures of the source are modelled by an
  explicit generator interface `RNG σ` (a state type together with a step
  function) threaded through every definition.
* The JavaScript `Math` primitives `sin`, `cos`, `atan2`, `sqrt` (whose values
  are implementation floats) are kept abstract as a parameter `MathPrims`;
  universally quantified theorems hold for every choice of these primitives,
  and closed witnesses instantiate them with the concrete stand-in `mathM0`.
  No claim settled here depends on the numeric accuracy of the primitives.
* `Array.prototype.sort` called with the impure comparator
  `() => random() - 0.5` has engine-defined behaviour; it is kept abstract as
  a parameter `SortFn σ` (theorems assume only that it permutes its input);
  closed statements instantiate it with `sortStub`, the behaviour of a sort
  in which every comparison keeps the current order, consuming one PRNG draw
  per comparison.
-/

set_option maxRecDepth 8000

namespace DeckglEV

/-- Interface of an injectable pseudo-random generator: a state type `σ` and a
step producing the next value together with the next state.  This models the
`random: () => number` closures produced by `seededRandom` in the source. -/
structure RNG (σ : Type) where
  next : σ → ℚ × σ

/-- One step of the linear-congruential recurrence of `seededRandom`
(`seed = (seed * 1103515245 + 12345) & 0x7fffffff`), with the 31-bit mask
modelled as reduction mod `2^31`. -/
def lcgStep (s : ℕ) : ℕ := (s * 1103515245 + 12345) % 2147483648

/-- The seeded PRNG of the source: the state is first advanced, then the new
state divided by `0x7fffffff = 2^31 - 1` is returned. -/
def lcgRNG : RNG ℕ where
  next s :=
    let s' := lcgStep s
    ((s' : ℚ) / 2147483647, s')

/-- The internal integer state after `n` draws from a given seed. -/
def lcgState (seed : ℕ) : ℕ → ℕ
  | 0 => seed
  | n + 1 => lcgStep (lcgState seed n)

/-- A degenerate generator that always returns the same value; used to
instantiate universally quantified theorems at concrete inputs. -/
def rngConst (q : ℚ) : RNG Unit where
  next _ := (q, ())

/-- The exact rational value of the IEEE double `Math.PI`
(`884279719003555 * 2 ^ (-48)`). -/
def mathPI : ℚ := 884279719003555 / 281474976710656

/-- The JavaScript `Math` primitives used by the generator (`sin`, `cos`,
`atan2`, `sqrt`).  Their values are implementation floats; the embedding keeps
them abstract.  No settled claim depends on their numeric accuracy. -/
structure MathPrims where
  sinQ : ℚ → ℚ
  cosQ : ℚ → ℚ
  atan2Q : ℚ → ℚ → ℚ
  sqrtQ : ℚ → ℚ

/-- A concrete stand-in instantiation of the `Math` primitives, used by closed
witnesses and counterexamples.  The facts stated at this instantiation do not
depend on the primitives' values (they concern PRNG-derived fields and the
program's own control flow). -/
def mathM0 : MathPrims where
  sinQ x := x
  cosQ _ := 0
  atan2Q y _ := y
  sqrtQ x := x

/-- Station type: `'standard' | 'fast' | 'superfast'`. -/
inductive StType
  | standard
  | fast
  | superfast
deriving DecidableEq, Repr

/-- One `ChargingStation` entity (the `coordinates` pair is split into `lng`
and `lat`). -/
structure CS where
  id : String
  name : String
  lng : ℚ
  lat : ℚ
  chargers : ℤ
  stype : StType
  operator : String
  available : ℤ
deriving DecidableEq, Repr

/-- Operator catalog of the source. -/
def operators : List String :=
  ["Tesla", "Fastned", "Shell Recharge", "Allego", "Ionity", "BP Pulse", "EVBox"]

/-- Name-suffix catalog used for city-station names. -/
def nameSuffixes : List String :=
  ["Noord", "Zuid", "Oost", "West", "Centrum", "Station", "Park", "Mall"]

/-- One city hub entry (`name`, `coords`, `density`). -/
structure CityHub where
  name : String
  lng : ℚ
  lat : ℚ
  density : ℕ

/-- The `cityHubs` catalog. -/
def cityHubs : List CityHub :=
  [⟨"Amsterdam", 4.895168, 52.370216, 25⟩,
   ⟨"Rotterdam", 4.462456, 51.926517, 20⟩,
   ⟨"The Hague", 4.288788, 52.078663, 18⟩,
   ⟨"Utrecht", 5.104480, 52.092876, 18⟩,
   ⟨"Eindhoven", 5.47778, 51.44083, 15⟩,
   ⟨"Groningen", 6.56667, 53.21917, 12⟩,
   ⟨"Tilburg", 5.0913, 51.55551, 10⟩,
   ⟨"Almere", 5.222124, 52.371353, 12⟩,
   ⟨"Breda", 4.768323, 51.571915, 10⟩,
   ⟨"Nijmegen", 5.8528, 51.8425, 10⟩]

/-- The `highwayStations` catalog of `chargingStations.ts` (name and
coordinates of each highway service point). -/
def highwayPoints : List (String × ℚ × ℚ) :=
  [("A1 Amersfoort", 5.387, 52.156),
   ("A1 Deventer", 6.155, 52.251),
   ("A1 Hengelo", 6.793, 52.265),
   ("A2 Breukelen", 4.989, 52.172),
   ("A2 Vianen", 5.091, 51.989),
   ("A2 Den Bosch", 5.299, 51.688),
   ("A2 Eindhoven Noord", 5.462, 51.481),
   ("A2 Weert", 5.707, 51.252),
   ("A4 Hoofddorp", 4.689, 52.303),
   ("A4 Leiden", 4.497, 52.160),
   ("A4 Delft", 4.357, 51.998),
   ("A12 Woerden", 4.881, 52.085),
   ("A12 Ede", 5.666, 52.039),
   ("A12 Arnhem", 5.898, 51.985),
   ("A28 Amersfoort Zuid", 5.387, 52.130),
   ("A28 Harderwijk", 5.620, 52.342),
   ("A28 Zwolle", 6.083, 52.508),
   ("A27 Hilversum", 5.176, 52.223),
   ("A27 Gorinchem", 4.973, 51.834),
   ("A58 Roosendaal", 4.465, 51.530),
   ("A58 Bergen op Zoom", 4.292, 51.495),
   ("A67 Venlo", 6.172, 51.370),
   ("A7 Hoorn", 5.059, 52.642),
   ("A7 Afsluitdijk", 5.271, 53.017),
   ("A7 Heerenveen", 5.924, 52.960),
   ("A28 Assen", 6.562, 52.993)]

/-- One iteration of the loop body of `generateStationsAroundCity`: place one
station at a randomized polar offset from the hub center and draw its type,
charger count, name suffix, operator and availability, in the source's draw
order. -/
def genCityStation (M : MathPrims) (g : RNG σ) (cityName : String) (cx cy : ℚ)
    (startId i : ℕ) (s : σ) : CS × σ :=
  let p1 := g.next s
  let angle := p1.1 * mathPI * 2
  let p2 := g.next p1.2
  let distance := 0.02 + p2.1 * 0.06
  let lng := cx + M.cosQ angle * distance
  let lat := cy + M.sinQ angle * distance * 0.7
  let p3 := g.next p2.2
  let tyP : StType × σ :=
    if p3.1 < 0.2 then (StType.superfast, p3.2)
    else
      let p4 := g.next p3.2
      (if p4.1 < 0.5 then StType.fast else StType.standard, p4.2)
  let p5 := g.next tyP.2
  let chargers : ℤ :=
    match tyP.1 with
    | .superfast => 8 + ⌊p5.1 * 8⌋
    | .fast => 4 + ⌊p5.1 * 6⌋
    | .standard => 2 + ⌊p5.1 * 4⌋
  let p6 := g.next p5.2
  let p7 := g.next p6.2
  let p8 := g.next p7.2
  ({ id := "station-" ++ toString (startId + i)
     name := cityName ++ " " ++ nameSuffixes.getD (⌊p6.1 * 8⌋).toNat "" ++ " " ++ toString (i + 1)
     lng := lng
     lat := lat
     chargers := chargers
     stype := tyP.1
     operator := operators.getD (⌊p7.1 * 7⌋).toNat ""
     available := ⌊p8.1 * ((chargers : ℚ) + 1)⌋ }, p8.2)

/-- The loop of `generateStationsAroundCity`: `count` remaining iterations,
current index `i`. -/
def genCityLoop (M : MathPrims) (g : RNG σ) (cityName : String) (cx cy : ℚ)
    (startId : ℕ) : ℕ → ℕ → σ → List CS × σ
  | 0, _, s => ([], s)
  | n + 1, i, s =>
    let p := genCityStation M g cityName cx cy startId i s
    let q := genCityLoop M g cityName cx cy startId n (i + 1) p.2
    (p.1 :: q.1, q.2)

/-- `generateStationsAroundCity` of `chargingStations.ts`. -/
def generateStationsAroundCity (M : MathPrims) (g : RNG σ) (cityName : String)
    (cx cy : ℚ) (count startId : ℕ) (s : σ) : List CS × σ :=
  genCityLoop M g cityName cx cy startId count 0 s

/-- `generateHighwayStation` of `chargingStations.ts`: one highway station
with type biased toward `superfast`, more chargers, and a small coordinate
jitter. -/
def genHighwayStation (g : RNG σ) (hname : String) (hx hy : ℚ)
    (i : ℕ) (s : σ) : CS × σ :=
  let p1 := g.next s
  let ty := if p1.1 < 0.4 then StType.superfast else StType.fast
  let p2 := g.next p1.2
  let chargers : ℤ :=
    match ty with
    | .superfast => 12 + ⌊p2.1 * 12⌋
    | _ => 6 + ⌊p2.1 * 8⌋
  let p3 := g.next p2.2
  let lng := hx + (p3.1 - 0.5) * 0.01
  let p4 := g.next p3.2
  let lat := hy + (p4.1 - 0.5) * 0.01
  let p5 := g.next p4.2
  let p6 := g.next p5.2
  ({ id := "highway-" ++ toString i
     name := hname ++ " Charging Plaza"
     lng := lng
     lat := lat
     chargers := chargers
     stype := ty
     operator := operators.getD (⌊p5.1 * 7⌋).toNat ""
     available := ⌊p6.1 * ((chargers : ℚ) + 1)⌋ }, p6.2)

/-- The fold over `cityHubs` inside `generateChargingStations`, threading the
running `stationId`. -/
def genCitiesLoop (M : MathPrims) (g : RNG σ) : List CityHub → ℕ → σ → List CS × σ
  | [], _, s => ([], s)
  | c :: rest, sid, s =>
    let p := generateStationsAroundCity M g c.name c.lng c.lat c.density sid s
    let q := genCitiesLoop M g rest (sid + c.density) p.2
    (p.1 ++ q.1, q.2)

/-- The fold over `highwayStations` inside `generateChargingStations`
(the index `i` is the highway station id). -/
def genHighwaysLoop (g : RNG σ) : List (String × ℚ × ℚ) → ℕ → σ → List CS × σ
  | [], _, s => ([], s)
  | h :: rest, i, s =>
    let p := genHighwayStation g h.1 h.2.1 h.2.2 i s
    let q := genHighwaysLoop g rest (i + 1) p.2
    (p.1 :: q.1, q.2)

/-- `generateChargingStations`: city-cluster stations for every hub followed
by one station per highway point.  The generator state is threaded in and
out: in `chargingStations.ts` the PRNG is the module-level closure
`seededRandom(123)`, so a second call within the same process starts from the
state the first call left behind. -/
def generateChargingStations (M : MathPrims) (g : RNG σ) (s : σ) : List CS × σ :=
  let p := genCitiesLoop M g cityHubs 0 s
  let q := genHighwaysLoop g highwayPoints 0 p.2
  (p.1 ++ q.1, q.2)

/-- `generateChargingStations` of the precomputation script (`part_001`):
identical body, but the PRNG is created freshly inside the function
(`const random = seededRandom(123)`), so every call starts from seed 123. -/
def generateChargingStationsScript (M : MathPrims) : List CS :=
  (generateChargingStations M lcgRNG 123).1

/-- `getDistance` (haversine, Earth radius 6371 km), written over the abstract
`Math` primitives; coordinates are `(lng, lat)` pairs. -/
def getDistance (M : MathPrims) (c1 c2 : ℚ × ℚ) : ℚ :=
  let dLat := (c2.2 - c1.2) * mathPI / 180
  let dLon := (c2.1 - c1.1) * mathPI / 180
  let a := M.sinQ (dLat / 2) * M.sinQ (dLat / 2) +
    M.cosQ (c1.2 * mathPI / 180) * M.cosQ (c2.2 * mathPI / 180) *
      (M.sinQ (dLon / 2) * M.sinQ (dLon / 2))
  let c := 2 * M.atan2Q (M.sqrtQ a) (M.sqrtQ (1 - a))
  6371 * c

/-- Coordinates of a station as a `(lng, lat)` pair. -/
def CS.coord (st : CS) : ℚ × ℚ := (st.lng, st.lat)

/-- Abstract behaviour of `Array.prototype.sort` with the impure comparator
`() => random() - 0.5`: the engine-defined reordering of the list together
with the generator state after the comparator calls. -/
def SortFn (σ : Type) : Type := List CS → σ → List CS × σ

/-- Discard `n` draws from the generator. -/
def rngSkip (g : RNG σ) : ℕ → σ → σ
  | 0, s => s
  | n + 1, s => rngSkip g n (g.next s).2

/-- A concrete instantiation of the random-comparator sort: the order is kept
unchanged and one draw is consumed per comparison (the behaviour of an
insertion sort each of whose comparisons keeps the current order). -/
def sortStub (g : RNG σ) : SortFn σ := fun l s => (l, rngSkip g (l.length - 1) s)

/-- `findNearbyStations`: all other stations whose distance lies in
`[minKm, maxKm]`, reordered by the random-comparator sort. -/
def findNearbyStations (M : MathPrims) (sortR : SortFn σ) (station : CS)
    (stations : List CS) (minKm maxKm : ℚ) (s : σ) : List CS × σ :=
  sortR (stations.filter fun t =>
    decide (t.id ≠ station.id ∧
      minKm ≤ getDistance M station.coord t.coord ∧
      getDistance M station.coord t.coord ≤ maxKm)) s

/-- Trip category of a demand edge. -/
inductive TripType
  | commuter
  | roadtrip
  | delivery
deriving DecidableEq, Repr

/-- One demand edge (`EVRoute` in the source; the `from`/`to` fields are named
`fromSt`/`toSt` because `from` is reserved in Lean). -/
structure EVRoute where
  fromSt : CS
  toSt : CS
  tripType : TripType
  weight : ℤ
deriving DecidableEq, Repr

/-- Does the station id mark a highway station (`id.startsWith('highway-')`)? -/
def isHighway (st : CS) : Bool := st.id.startsWith "highway-"

/-- Push one edge per target, drawing the weight `wbase + ⌊u * wspan⌋` for
each; shared shape of the rule-3/4 (and part_006 rule-6/7/8) loop bodies. -/
def pushTargets (g : RNG σ) (station : CS) (tt : TripType) (wbase wspan : ℤ) :
    List CS → σ → List EVRoute × σ
  | [], s => ([], s)
  | t :: rest, s =>
    let p := g.next s
    let q := pushTargets g station tt wbase wspan rest p.2
    (⟨station, t, tt, wbase + ⌊p.1 * (wspan : ℚ)⌋⟩ :: q.1, q.2)

/-- The inner loop of rule 1: for each of the (at most 3) sliced candidates,
push a `roadtrip` edge of weight `3 + ⌊u * 4⌋` only if the candidate is a
highway station (the weight draw happens only for pushed edges). -/
def rule1Targets (g : RNG σ) (station : CS) : List CS → σ → List EVRoute × σ
  | [], s => ([], s)
  | t :: rest, s =>
    if isHighway t then
      let p := g.next s
      let q := rule1Targets g station rest p.2
      (⟨station, t, .roadtrip, 3 + ⌊p.1 * 4⌋⟩ :: q.1, q.2)
    else
      rule1Targets g station rest s

/-- Rule 1 body for one highway station: shuffle the 20–80 km window (over
all stations), slice the first 3, and connect to the highway ones among
them. -/
def rule1Step (M : MathPrims) (sortR : SortFn σ) (stations : List CS) (g : RNG σ)
    (station : CS) (s : σ) : List EVRoute × σ :=
  let p := findNearbyStations M sortR station stations 20 80 s
  rule1Targets g station (p.1.take 3) p.2

/-- Rule 1 (highway corridor trips): fold of `rule1Step` over the highway
stations. -/
def rule1 (M : MathPrims) (sortR : SortFn σ) (stations : List CS) (g : RNG σ) :
    List CS → σ → List EVRoute × σ
  | [], s => ([], s)
  | h :: rest, s =>
    let p := rule1Step M sortR stations g h s
    let q := rule1 M sortR stations g rest p.2
    (p.1 ++ q.1, q.2)

/-- Rule 2 body for one city station: with the PRNG draw `≤ 0.3`, connect to
the head of the shuffled list of highway stations closer than 40 km (weight
fixed at 2); with the draw `> 0.3`, add nothing. -/
def rule2Step (M : MathPrims) (sortR : SortFn σ) (hws : List CS) (g : RNG σ)
    (station : CS) (s : σ) : List EVRoute × σ :=
  let p0 := g.next s
  if p0.1 > 0.3 then ([], p0.2)
  else
    let p := sortR (hws.filter fun h => decide (getDistance M station.coord h.coord < 40)) p0.2
    match p.1.head? with
    | some h => ([⟨station, h, .roadtrip, 2⟩], p.2)
    | none => ([], p.2)

/-- Rule 2 (city → highway trips): fold of `rule2Step` over the city
stations. -/
def rule2 (M : MathPrims) (sortR : SortFn σ) (hws : List CS) (g : RNG σ) :
    List CS → σ → List EVRoute × σ
  | [], s => ([], s)
  | c :: rest, s =>
    let p := rule2Step M sortR hws g c s
    let q := rule2 M sortR hws g rest p.2
    (p.1 ++ q.1, q.2)

/-- Rule 3 body for one city station: shuffle the 3–25 km window, keep the
non-highway candidates, slice the first 2, and push `commuter` edges of
weight `4 + ⌊u * 4⌋`. -/
def rule3Step (M : MathPrims) (sortR : SortFn σ) (stations : List CS) (g : RNG σ)
    (station : CS) (s : σ) : List EVRoute × σ :=
  let p := findNearbyStations M sortR station stations 3 25 s
  pushTargets g station .commuter 4 4 ((p.1.filter fun t => !isHighway t).take 2) p.2

/-- Rule 3 (local commuter trips): fold of `rule3Step` over the city
stations. -/
def rule3 (M : MathPrims) (sortR : SortFn σ) (stations : List CS) (g : RNG σ) :
    List CS → σ → List EVRoute × σ
  | [], s => ([], s)
  | c :: rest, s =>
    let p := rule3Step M sortR stations g c s
    let q := rule3 M sortR stations g rest p.2
    (p.1 ++ q.1, q.2)

/-- Rule 4 body for one delivery hub: shuffle the 2–15 km window, slice the
first 4, and push `delivery` edges of weight `5 + ⌊u * 5⌋`. -/
def rule4Step (M : MathPrims) (sortR : SortFn σ) (stations : List CS) (g : RNG σ)
    (hub : CS) (s : σ) : List EVRoute × σ :=
  let p := findNearbyStations M sortR hub stations 2 15 s
  pushTargets g hub .delivery 5 5 (p.1.take 4) p.2

/-- Rule 4 (delivery routes): fold of `rule4Step` over the `superfast` city
hubs. -/
def rule4 (M : MathPrims) (sortR : SortFn σ) (stations : List CS) (g : RNG σ) :
    List CS → σ → List EVRoute × σ
  | [], s => ([], s)
  | h :: rest, s =>
    let p := rule4Step M sortR stations g h s
    let q := rule4 M sortR stations g rest p.2
    (p.1 ++ q.1, q.2)

/-- Rules 1–4 of `generateEVRouteNetwork`, shared verbatim by
`src/data/tripData.ts`, the precomputation script (`part_001`) and the
precomputed-JSON variant (`part_006`): highway corridors, city → highway,
local commuter, delivery. -/
def evNet14 (M : MathPrims) (sortR : SortFn σ) (stations : List CS) (g : RNG σ)
    (s : σ) : List EVRoute × σ :=
  let hws := stations.filter isHighway
  let citys := stations.filter fun st => !isHighway st
  let p1 := rule1 M sortR stations g hws s
  let p2 := rule2 M sortR hws g citys p1.2
  let p3 := rule3 M sortR stations g citys p2.2
  let p4 := rule4 M sortR stations g (citys.filter fun st => st.stype == StType.superfast) p3.2
  (p1.1 ++ (p2.1 ++ (p3.1 ++ p4.1)), p4.2)

/-- `generateEVRouteNetwork` as used by the precomputation script
(`part_001`) and by the live-fetch `tripData.ts`: rules 1–4 only. -/
def generateEVRouteNetworkScript (M : MathPrims) (sortR : SortFn σ)
    (stations : List CS) (g : RNG σ) (s : σ) : List EVRoute × σ :=
  evNet14 M sortR stations g s

/-- Substring test modelling JavaScript `String.prototype.includes`. -/
def listHasSub (pat : List Char) : List Char → Bool
  | [] => List.isPrefixOf pat []
  | a :: rest => List.isPrefixOf pat (a :: rest) || listHasSub pat rest

/-- `s.includes(pat)` on strings. -/
def strIncludes (s pat : String) : Bool := listHasSub pat.data s.data

/-- Rule 5 inner loop (part_006): for each sliced Rotterdam station, with the
draw `≤ 0.6` push a `roadtrip` edge of weight `3 + ⌊u * 3⌋`. -/
def rule5Inner (g : RNG σ) (station : CS) : List CS → σ → List EVRoute × σ
  | [], s => ([], s)
  | rot :: rest, s =>
    let p0 := g.next s
    if p0.1 > 0.6 then rule5Inner g station rest p0.2
    else
      let pw := g.next p0.2
      let q := rule5Inner g station rest pw.2
      (⟨station, rot, .roadtrip, 3 + ⌊pw.1 * 3⌋⟩ :: q.1, q.2)

/-- Rule 5 (part_006, Amsterdam → Rotterdam corridor): fold of `rule5Inner`
over the first 8 Amsterdam stations, each against the first 6 Rotterdam
stations. -/
def rule5 (g : RNG σ) (rots : List CS) : List CS → σ → List EVRoute × σ
  | [], s => ([], s)
  | ams :: rest, s =>
    let p := rule5Inner g ams (rots.take 6) s
    let q := rule5 g rots rest p.2
    (p.1 ++ q.1, q.2)

/-- Rule 6/7 body (part_006, intra-city commuter boost): shuffle the other
stations of the pool, slice the first 3, and push `commuter` edges of weight
`5 + ⌊u * 5⌋`. -/
def rule67Step (sortR : SortFn σ) (g : RNG σ) (pool : List CS) (station : CS)
    (s : σ) : List EVRoute × σ :=
  let p := sortR (pool.filter fun t => !(t.id == station.id)) s
  pushTargets g station .commuter 5 5 (p.1.take 3) p.2

/-- Rule 6/7 (part_006): fold of `rule67Step` over the pool itself. -/
def rule67 (sortR : SortFn σ) (g : RNG σ) (pool : List CS) :
    List CS → σ → List EVRoute × σ
  | [], s => ([], s)
  | c :: rest, s =>
    let p := rule67Step sortR g pool c s
    let q := rule67 sortR g pool rest p.2
    (p.1 ++ q.1, q.2)

/-- Rule 8 body (part_006, delivery hub boost): shuffle the 1–20 km window,
slice the first 6, and push `delivery` edges of weight `6 + ⌊u * 6⌋`. -/
def rule8Step (M : MathPrims) (sortR : SortFn σ) (stations : List CS) (g : RNG σ)
    (hub : CS) (s : σ) : List EVRoute × σ :=
  let p := findNearbyStations M sortR hub stations 1 20 s
  pushTargets g hub .delivery 6 6 (p.1.take 6) p.2

/-- Rule 8 (part_006): fold of `rule8Step` over the Amsterdam and Rotterdam
`superfast`/`fast` hubs. -/
def rule8 (M : MathPrims) (sortR : SortFn σ) (stations : List CS) (g : RNG σ) :
    List CS → σ → List EVRoute × σ
  | [], s => ([], s)
  | h :: rest, s =>
    let p := rule8Step M sortR stations g h s
    let q := rule8 M sortR stations g rest p.2
    (p.1 ++ q.1, q.2)

/-- `generateEVRouteNetwork` of the precomputed-JSON variant (`part_006`):
rules 1–4 followed by the extra Amsterdam/Rotterdam rules (corridor,
intra-city commuter, delivery hub boost).  In the source the station list is
the module-level `chargingStations`; it is an explicit parameter here. -/
def generateEVRouteNetworkPre (M : MathPrims) (sortR : SortFn σ)
    (stations : List CS) (g : RNG σ) (s : σ) : List EVRoute × σ :=
  let p14 := evNet14 M sortR stations g s
  let citys := stations.filter fun st => !isHighway st
  let ams := citys.filter fun st => strIncludes st.name "Amsterdam"
  let rots := citys.filter fun st => strIncludes st.name "Rotterdam"
  let p5 := rule5 g rots (ams.take 8) p14.2
  let p6 := rule67 sortR g ams ams p5.2
  let p7 := rule67 sortR g rots rots p6.2
  let hubs := (ams.filter fun st => st.stype == StType.superfast || st.stype == StType.fast) ++
    (rots.filter fun st => st.stype == StType.superfast || st.stype == StType.fast)
  let p8 := rule8 M sortR stations g hubs p7.2
  (p14.1 ++ (p5.1 ++ (p6.1 ++ (p7.1 ++ p8.1))), p8.2)

/-- `getRouteKey(fromId, toId)`. -/
def getRouteKey (fromId toId : String) : String := fromId ++ "-" ++ toId

/-- One entry of the unique ordered station-pair list collected by the
precomputation driver (and by `initializeRoutes` of `tripData.ts`). -/
structure RoutePair where
  fromSt : CS
  toSt : CS
  key : String
deriving DecidableEq, Repr

/-- The pair-collection fold: for each demand edge, push its key and then its
reverse key, each only if not already in the seen set. -/
def collectRoutePairsAux : List EVRoute → List String → List RoutePair
  | [], _ => []
  | r :: rest, seen =>
    let k := getRouteKey r.fromSt.id r.toSt.id
    let rk := getRouteKey r.toSt.id r.fromSt.id
    let q1 : List RoutePair × List String :=
      if k ∈ seen then ([], seen) else ([⟨r.fromSt, r.toSt, k⟩], k :: seen)
    let q2 : List RoutePair × List String :=
      if rk ∈ q1.2 then ([], q1.2) else ([⟨r.toSt, r.fromSt, rk⟩], rk :: q1.2)
    q1.1 ++ q2.1 ++ collectRoutePairsAux rest q2.2

/-- The unique ordered station-pair list the precomputation driver resolves
and persists (both the natural direction and the reverse of every demand
edge, de-duplicated in encounter order). -/
def collectRoutePairs (routes : List EVRoute) : List RoutePair :=
  collectRoutePairsAux routes []

/-- Proof-support mirror of the seen-set threaded through
`collectRoutePairsAux` (not part of the source; used to state its
invariants). -/
def seenAfter : List EVRoute → List String → List String
  | [], seen => seen
  | r :: rest, seen =>
    let k := getRouteKey r.fromSt.id r.toSt.id
    let rk := getRouteKey r.toSt.id r.fromSt.id
    let s1 := if k ∈ seen then seen else k :: seen
    let s2 := if rk ∈ s1 then s1 else rk :: s1
    seenAfter rest s2

/-- A resolved route geometry: path coordinates, duration in seconds,
distance in meters. -/
structure RouteGeometry where
  coordinates : List (ℚ × ℚ)
  duration : ℚ
  distance : ℚ
deriving DecidableEq, Repr

/-- Outcome of one call of the external `fetch`: a network exception, or a
response with an HTTP status and the parsed `data.routes` array (an empty
array models both a missing and an empty `routes` field). -/
inductive FetchOutcome
  | exn
  | resp (status : ℕ) (routes : List RouteGeometry)
deriving DecidableEq, Repr

/-- The retry loop of `fetchRouteWithRetry` (`part_001`).  The environment
`f` gives the outcome of the `n`-th fetch call; the result is paired with the
list of waits performed (in order).  On 429 the wait is
`retryDelay * 2 ^ attempt` (exponential backoff); on other failures and on
exceptions it is the flat `retryDelay`; a retry happens only while
`attempt < maxRetries`.  The fuel equals `maxRetries + 1 - attempt`. -/
def fetchRetryAux (f : ℕ → FetchOutcome) (maxRetries : ℕ) (retryDelay : ℚ) :
    ℕ → ℕ → Option RouteGeometry × List ℚ
  | _, 0 => (none, [])
  | attempt, fuel + 1 =>
    match f attempt with
    | .exn =>
      if attempt < maxRetries then
        let q := fetchRetryAux f maxRetries retryDelay (attempt + 1) fuel
        (q.1, retryDelay :: q.2)
      else (none, [])
    | .resp status routes =>
      if status = 429 then
        if attempt < maxRetries then
          let q := fetchRetryAux f maxRetries retryDelay (attempt + 1) fuel
          (q.1, retryDelay * 2 ^ attempt :: q.2)
        else (none, [])
      else if ¬(200 ≤ status ∧ status ≤ 299) then
        if attempt < maxRetries then
          let q := fetchRetryAux f maxRetries retryDelay (attempt + 1) fuel
          (q.1, retryDelay :: q.2)
        else (none, [])
      else
        match routes with
        | [] => (none, [])
        | r :: _ => (some r, [])

/-- `fetchRouteWithRetry` of the precomputation script: attempts
`0 .. maxRetries` (defaults 3 and 2000 ms in the source), returning the first
successful geometry or `none`, together with the waits performed. -/
def fetchRouteWithRetry (f : ℕ → FetchOutcome) (maxRetries : ℕ) (retryDelay : ℚ) :
    Option RouteGeometry × List ℚ :=
  fetchRetryAux f maxRetries retryDelay 0 (maxRetries + 1)

/-- Rounding model for `Number.prototype.toFixed(4)`: the coordinate scaled
by `10^4` and rounded to the nearest integer. -/
def toFixed4 (x : ℚ) : ℤ := ⌊x * 10000 + 1 / 2⌋

/-- `getCacheKey` of `routeService.ts` (`part_009`): the rounded-coordinate
pair key `"lng,lat-lng,lat"`. -/
def getCacheKey (a b : ℚ × ℚ) : String :=
  toString (toFixed4 a.1) ++ "," ++ toString (toFixed4 a.2) ++ "-" ++
    toString (toFixed4 b.1) ++ "," ++ toString (toFixed4 b.2)

/-- The mutable environment of `routeService.ts`: the module-level
`routeCache` plus a count of external fetch calls issued so far (the count
also indexes into the fetch environment `f`). -/
structure FetchState where
  cache : List (String × RouteGeometry)
  calls : ℕ
deriving DecidableEq, Repr

/-- `fetchRoute` of `routeService.ts` (`part_009`): consult the cache under
the rounded-coordinate key and return immediately on a hit; otherwise issue
one external request (no retry in this client) and cache the geometry only on
success — a failed resolution (non-ok status, empty `routes`, or exception)
returns `null` without caching. -/
def fetchRoute (f : ℕ → FetchOutcome) (a b : ℚ × ℚ) (st : FetchState) :
    Option RouteGeometry × FetchState :=
  let key := getCacheKey a b
  match st.cache.lookup key with
  | some geo => (some geo, st)
  | none =>
    let st' : FetchState := ⟨st.cache, st.calls + 1⟩
    match f st.calls with
    | .exn => (none, st')
    | .resp status routes =>
      if ¬(200 ≤ status ∧ status ≤ 299) then (none, st')
      else
        match routes with
        | [] => (none, st')
        | r :: _ => (some r, ⟨(key, r) :: st'.cache, st'.calls⟩)

/-- One vehicle-profile catalog entry (`EVType` in the source; the `type`
field is named `category`). -/
structure EVType where
  category : String
  brand : String
  color : ℤ × ℤ × ℤ
  speedMult : ℚ
  rangeKm : ℚ
deriving DecidableEq, Repr

/-- The `evTypes` vehicle catalog. -/
def evTypes : List EVType :=
  [⟨"sedan", "Tesla Model 3", (255, 255, 255), 1.1, 450⟩,
   ⟨"sedan", "Tesla Model 3", (200, 0, 0), 1.1, 450⟩,
   ⟨"suv", "Tesla Model Y", (50, 50, 50), 1.0, 400⟩,
   ⟨"suv", "Tesla Model X", (0, 0, 150), 0.95, 500⟩,
   ⟨"hatchback", "VW ID.3", (0, 180, 255), 1.0, 350⟩,
   ⟨"suv", "VW ID.4", (100, 100, 100), 0.95, 380⟩,
   ⟨"sedan", "BMW i4", (0, 100, 200), 1.05, 400⟩,
   ⟨"suv", "Audi e-tron", (80, 80, 80), 0.9, 350⟩,
   ⟨"hatchback", "Hyundai Ioniq 5", (180, 180, 180), 1.0, 380⟩,
   ⟨"suv", "Kia EV6", (0, 150, 100), 1.0, 400⟩,
   ⟨"sedan", "Polestar 2", (255, 200, 0), 1.05, 400⟩,
   ⟨"hatchback", "Nissan Leaf", (0, 100, 150), 0.9, 280⟩,
   ⟨"van", "Mercedes eVito", (255, 200, 0), 0.85, 250⟩,
   ⟨"van", "VW e-Crafter", (255, 140, 0), 0.8, 200⟩,
   ⟨"van", "Rivian EDV", (0, 50, 100), 0.85, 300⟩]

/-- Fallback vehicle profile modelling an out-of-range catalog index (never
reached for draws in `[0, 1)`). -/
def defaultEV : EVType := ⟨"", "", (0, 0, 0), 1, 1⟩

/-- `getBatteryColor`: green above 60 %, yellow above 30 %, red otherwise. -/
def getBatteryColor (batteryPercent : ℚ) : ℤ × ℤ × ℤ :=
  if batteryPercent > 60 then (0, 255, 136)
  else if batteryPercent > 30 then (255, 200, 0)
  else (255, 80, 80)

/-- Truncated integer part (JavaScript number-to-integer conversion used by
the `%` operator). -/
def ratTrunc (x : ℚ) : ℤ := if 0 ≤ x then ⌊x⌋ else ⌈x⌉

/-- The JavaScript remainder operator `x % y` on numbers (truncated
division). -/
def jsMod (x y : ℚ) : ℚ := x - y * ratTrunc (x / y)

/-- One trip waypoint (coordinates plus animation timestamp). -/
structure TripWaypoint where
  coordinates : ℚ × ℚ
  timestamp : ℚ
deriving DecidableEq, Repr

/-- One generated trip (`TripData`); the optional metadata fields of the
TypeScript interface are never populated by the generator and are omitted. -/
structure TripData where
  id : String
  waypoints : List TripWaypoint
  vehicle : String
  color : ℤ × ℤ × ℤ
deriving DecidableEq, Repr

/-- Animation duration of a trip, scaled from the real route duration:
`(duration / 60) * 20 / speedMult`. -/
def tripScaledDuration (route : RouteGeometry) (ev : EVType) : ℚ :=
  route.duration / 60 * 20 / ev.speedMult

/-- Start battery of a trip: `30 + u * 60` for the PRNG draw `u`. -/
def tripStartBattery (u : ℚ) : ℚ := 30 + u * 60

/-- Battery consumed: `(distanceKm / rangeKm) * 100`. -/
def tripBatteryUsed (route : RouteGeometry) (ev : EVType) : ℚ :=
  route.distance / 1000 / ev.rangeKm * 100

/-- End battery: `max(5, startBattery - batteryUsed)`. -/
def tripEndBattery (route : RouteGeometry) (ev : EVType) (u : ℚ) : ℚ :=
  max 5 (tripStartBattery u - tripBatteryUsed route ev)

/-- `generateEVTripFromRoute`: build one trip from a geometry, start time and
vehicle profile.  Waypoint `i` is stamped `startTime + i * timePerStep`; the
battery simulation (one PRNG draw) drives the colour encoding. -/
def generateEVTripFromRoute (route : RouteGeometry) (startTime : ℚ) (ev : EVType)
    (tripId : ℕ) (evRoute : EVRoute) (g : RNG σ) (s : σ) : TripData × σ :=
  let numWaypoints := route.coordinates.length
  let scaledDuration := tripScaledDuration route ev
  let timePerStep := if 1 < numWaypoints then scaledDuration / ((numWaypoints - 1 : ℕ) : ℚ) else 0
  let pu := g.next s
  let startBattery := tripStartBattery pu.1
  let endBattery := tripEndBattery route ev pu.1
  let avgBattery := (startBattery + endBattery) / 2
  let color : ℤ × ℤ × ℤ :=
    match evRoute.tripType with
    | .delivery => (255, 160, 0)
    | .roadtrip => getBatteryColor avgBattery
    | .commuter =>
      let bc := getBatteryColor avgBattery
      (min 255 (bc.1 + 80), min 255 (bc.2.1 + 80), min 255 (bc.2.2 + 80))
  ({ id := "ev-" ++ toString tripId ++ "-" ++ evRoute.fromSt.name.take 10 ++ "-" ++
        evRoute.toSt.name.take 10
     waypoints := route.coordinates.enum.map fun ci =>
       ⟨ci.2, startTime + (ci.1 : ℚ) * timePerStep⟩
     vehicle := ev.category
     color := color }, pu.2)

/-- The vehicle profiles eligible for a trip type: vans for `delivery`,
everything but vans otherwise. -/
def eligibleEVsFor (tt : TripType) : List EVType :=
  match tt with
  | .delivery => evTypes.filter fun ev => ev.category == "van"
  | _ => evTypes.filter fun ev => !(ev.category == "van")

/-- Forward-trip half of the `generateTripData` loop body: build a trip only
when the forward geometry is present. -/
def tripForward (g : RNG σ) (evRoute : EVRoute) (fwd : Option RouteGeometry)
    (startTime : ℚ) (ev : EVType) (tripId : ℕ) (s : σ) : List TripData × ℕ × σ :=
  match fwd with
  | some r =>
    let p := generateEVTripFromRoute r startTime ev tripId evRoute g s
    ([p.1], tripId + 1, p.2)
  | none => ([], tripId, s)

/-- Return-trip half of the loop body: one draw decides (with probability
0.7) whether a return trip is built; only then, and only when the reverse
geometry is present, are the return start time and the return vehicle drawn
and the reversed-edge trip built. -/
def tripReturn (g : RNG σ) (evRoute : EVRoute) (rev : Option RouteGeometry)
    (eligible : List EVType) (startTime : ℚ) (tripId : ℕ) (s : σ) :
    List TripData × ℕ × σ :=
  let p3 := g.next s
  if p3.1 > 0.3 then
    match rev with
    | some r =>
      let p4 := g.next p3.2
      let returnStart := jsMod (startTime + 1800 / 2 + p4.1 * 200) 1800
      let p5 := g.next p4.2
      let returnEV := eligible.getD (⌊p5.1 * (eligible.length : ℚ)⌋).toNat defaultEV
      let retRoute : EVRoute := ⟨evRoute.toSt, evRoute.fromSt, evRoute.tripType, evRoute.weight⟩
      let p := generateEVTripFromRoute r returnStart returnEV tripId retRoute g p5.2
      ([p.1], tripId + 1, p.2)
    | none => ([], tripId, p3.2)
  else ([], tripId, p3.2)

/-- The inner `for (i = 0; i < numTrips; i++)` loop of `generateTripData`:
draw a start time spread across the loop plus jitter, draw a vehicle, build
the forward trip (when resolvable) and possibly the return trip. -/
def tripInner (g : RNG σ) (evRoute : EVRoute) (fwd rev : Option RouteGeometry)
    (eligible : List EVType) (numTrips : ℕ) : ℕ → ℕ → ℕ → σ → List TripData × ℕ × σ
  | _, 0, tripId, s => ([], tripId, s)
  | i, fuel + 1, tripId, s =>
    let p1 := g.next s
    let startTime := jsMod ((i : ℚ) * (1800 / (numTrips : ℚ)) + p1.1 * 50) 1800
    let p2 := g.next p1.2
    let ev := eligible.getD (⌊p2.1 * (eligible.length : ℚ)⌋).toNat defaultEV
    let pf := tripForward g evRoute fwd startTime ev tripId p2.2
    let pr := tripReturn g evRoute rev eligible startTime pf.2.1 pf.2.2
    let q := tripInner g evRoute fwd rev eligible numTrips (i + 1) fuel pr.2.1 pr.2.2
    (pf.1 ++ pr.1 ++ q.1, q.2)

/-- The fold of `generateTripData` over the demand edges, threading the trip
id counter; `geoms` is the route-geometry table (`routeGeometries`), queried
under the forward and reverse route keys of each edge. -/
def tripsForRoutes (g : RNG σ) (geoms : String → Option RouteGeometry) :
    List EVRoute → ℕ → σ → List TripData × ℕ × σ
  | [], tripId, s => ([], tripId, s)
  | r :: rest, tripId, s =>
    let fwd := geoms (getRouteKey r.fromSt.id r.toSt.id)
    let rev := geoms (getRouteKey r.toSt.id r.fromSt.id)
    let eligible := eligibleEVsFor r.tripType
    let p := tripInner g r fwd rev eligible r.weight.toNat 0 r.weight.toNat tripId s
    let q := tripsForRoutes g geoms rest p.2.1 p.2.2
    (p.1 ++ q.1, q.2)

/-- `generateTripData` (identical in `tripData.ts` and `part_006`): expand
every demand edge into `weight` scheduled trips (loop length 1800), plus
probabilistic return trips. -/
def generateTripData (geoms : String → Option RouteGeometry)
    (evRoutes : List EVRoute) (g : RNG σ) (s : σ) : List TripData × σ :=
  let p := tripsForRoutes g geoms evRoutes 0 s
  (p.1, p.2.2)

/-- The id sequence contributed by the city passes: for each hub, ids
`station-(sid) .. station-(sid + density - 1)`, with `sid` accumulating the
densities. -/
def cityIdList : List CityHub → ℕ → List String
  | [], _ => []
  | c :: rest, sid =>
    ((List.range c.density).map fun k => "station-" ++ toString (sid + k)) ++
      cityIdList rest (sid + c.density)

/-- Decimal value of a digit string (proof device: a cheap numeric key for id
strings, so that distinctness of the ids can be checked on machine naturals
rather than by pairwise string comparison). -/
def digitsVal : List Char → ℕ → ℕ
  | [], acc => acc
  | c :: cs, acc => digitsVal cs (acc * 10 + c.toNat)

/-- Numeric key of a station id: the first character (distinguishing the
`station-` and `highway-` passes) together with the decimal value of the
suffix after the 8-character prefix. -/
def idKey (s : String) : ℕ × ℕ :=
  ((s.data.headD ' ').toNat, digitsVal (s.data.drop 8) 0)

/-- Claim C8 (counterexample): the first value drawn from seed 0 is
`12345 / (2^31 - 1)`, not `12345 / 2^31` as the claim's output formula
(`output = state / 2^31`) would give: the source divides by `0x7fffffff`,
which is `2^31 - 1`. -/
theorem lcg_output_divisor_counterexample :
    (lcgRNG.next 0).2 = 12345 ∧
    (lcgRNG.next 0).1 = (12345 : ℚ) / 2147483647 ∧
    (12345 : ℚ) / 2147483647 ≠ (12345 : ℚ) / 2147483648 := by
  refine ⟨by decide, by norm_num [lcgRNG, lcgStep], by norm_num⟩

/-- Claim C8 (amended): at every position of the output sequence of any seed,
the internal state is advanced by `state = (state * 1103515245 + 12345) mod
2^31` and the value returned is `state / (2^31 - 1)`, a rational lying in the
closed interval `[0, 1]` (it can reach `1` exactly when the state is
`2^31 - 1`), not `state / 2^31`. -/
theorem lcg_next_spec (seed n : ℕ) :
    lcgState seed (n + 1) = (lcgState seed n * 1103515245 + 12345) % 2 ^ 31 ∧
    (lcgRNG.next (lcgState seed n)).1 = (lcgState seed (n + 1) : ℚ) / (2 ^ 31 - 1) ∧
    0 ≤ (lcgRNG.next (lcgState seed n)).1 ∧
    (lcgRNG.next (lcgState seed n)).1 ≤ 1 := by
  have hstep : lcgState seed (n + 1) = lcgStep (lcgState seed n) := rfl
  have hlt : lcgStep (lcgState seed n) < 2 ^ 31 := by
    unfold lcgStep
    exact Nat.mod_lt _ (by norm_num)
  refine ⟨?_, ?_, ?_, ?_⟩
  · rw [hstep]; rfl
  · rw [hstep, show ((2 : ℚ) ^ 31 - 1) = 2147483647 by norm_num]
    rfl
  · show (0 : ℚ) ≤ (lcgStep (lcgState seed n) : ℚ) / 2147483647
    exact div_nonneg (Nat.cast_nonneg _) (by norm_num)
  · have hle : (lcgStep (lcgState seed n) : ℚ) ≤ 2147483647 := by
      have h : lcgStep (lcgState seed n) ≤ 2147483647 := by omega
      exact_mod_cast h
    show (lcgStep (lcgState seed n) : ℚ) / 2147483647 ≤ 1
    rw [div_le_one (by norm_num)]
    exact hle

/-- Claim C5: the retry loop of `fetchRouteWithRetry` matches the two
scenarios of the specification.  A stub answering 429 exactly twice and then
succeeding yields the successful geometry after exactly 2 retries, with the
exponential delay sequence `[d * 2^0, d * 2^1]`; a stub always answering HTTP
500 yields `none` after `maxRetries = 3` flat-delay retries, with total wait
`d * 3`. -/
theorem fetchRouteWithRetry_backoff (d : ℚ) (geo : RouteGeometry) :
    fetchRouteWithRetry (fun n => if n < 2 then .resp 429 [] else .resp 200 [geo]) 3 d
      = (some geo, [d, d * 2]) ∧
    fetchRouteWithRetry (fun _ => .resp 500 []) 3 d = (none, [d, d, d]) ∧
    (fetchRouteWithRetry (fun _ => .resp 500 []) 3 d).2.sum = d * 3 := by
  have h2 : fetchRouteWithRetry (fun _ => .resp 500 []) 3 d = (none, [d, d, d]) := by
    simp [fetchRouteWithRetry, fetchRetryAux]
  refine ⟨?_, h2, ?_⟩
  · simp [fetchRouteWithRetry, fetchRetryAux]
  · rw [h2]
    simp [List.sum_cons]
    ring

/-- Claim C6 (counterexample): when the first resolution fails (here an HTTP
500 stub), nothing is cached, so calling `fetchRoute` twice on the same
coordinate pair issues two external requests — not at most one. -/
theorem fetchRoute_failure_refetches :
    (fetchRoute (fun _ => .resp 500 []) (0, 0) (1, 1)
        (fetchRoute (fun _ => .resp 500 []) (0, 0) (1, 1) ⟨[], 0⟩).2).2.calls = 2 := by
  with_unfolding_all decide

/-- Claim C6 (amended): when the first call succeeds, the geometry is cached
permanently under the rounded-coordinate key, and a second call on the same
pair is a pure cache hit: it returns the cached value, leaves the state
unchanged, and issues no external request — this holds for every fetch
environment `f'` of the second call, which is never consulted.  Failed
resolutions, however, are not cached (see the counterexample). -/
theorem fetchRoute_cache_idempotent (f f' : ℕ → FetchOutcome) (a b : ℚ × ℚ)
    (st st1 : FetchState) (geo : RouteGeometry)
    (h : fetchRoute f a b st = (some geo, st1)) :
    fetchRoute f' a b st1 = (some geo, st1) := by
  have hmain : st1.cache.lookup (getCacheKey a b) = some geo := by
    simp only [fetchRoute] at h
    split at h
    · rename_i g0 hlook
      simp only [Prod.mk.injEq, Option.some.injEq] at h
      obtain ⟨hgeo, hst⟩ := h
      rw [← hst, hlook, hgeo]
    · rename_i hlook
      split at h
      · simp at h
      · rename_i status routes
        split at h
        · simp at h
        · split at h
          · simp at h
          · rename_i r rs
            simp only [Prod.mk.injEq, Option.some.injEq] at h
            obtain ⟨hgeo, hst⟩ := h
            rw [← hst]
            simp [hgeo]
  simp only [fetchRoute]
  rw [hmain]

/-- Witness for the cache-idempotence theorem at a concrete input: a
successful first call on `(0,0) → (1,1)` caches the geometry under the key
`"0,0-10000,10000"`, and the second call returns it even under an
always-throwing fetch environment. -/
theorem fetchRoute_cache_idempotent_witness :
    fetchRoute (fun _ => .exn) (0, 0) (1, 1)
        ⟨[("0,0-10000,10000", ⟨[], 1, 2⟩)], 1⟩
      = (some ⟨[], 1, 2⟩, ⟨[("0,0-10000,10000", ⟨[], 1, 2⟩)], 1⟩) :=
  fetchRoute_cache_idempotent (fun _ => .resp 200 [⟨[], 1, 2⟩]) (fun _ => .exn)
    (0, 0) (1, 1) ⟨[], 0⟩ _ _ (by with_unfolding_all decide)

/-- Claim C10: for the battery simulation of every generated trip (PRNG draw
`u ∈ [0, 1]`, nonnegative route distance, positive vehicle range),
`5 ≤ batteryEnd ≤ batteryStart ≤ 90`; the start battery is `30 + u * 60 ∈
[30, 90]`, consumption is `(distanceKm / rangeKm) * 100`, and end battery is
`max(5, start − consumption)`. -/
theorem battery_bounds (route : RouteGeometry) (ev : EVType) (u : ℚ)
    (hu0 : 0 ≤ u) (hu1 : u ≤ 1) (hd : 0 ≤ route.distance) (hr : 0 < ev.rangeKm) :
    5 ≤ tripEndBattery route ev u ∧
    tripEndBattery route ev u ≤ tripStartBattery u ∧
    tripStartBattery u ≤ 90 ∧ 30 ≤ tripStartBattery u ∧
    tripEndBattery route ev u = max 5 (tripStartBattery u - tripBatteryUsed route ev) ∧
    tripBatteryUsed route ev = route.distance / 1000 / ev.rangeKm * 100 := by
  have hused : 0 ≤ tripBatteryUsed route ev := by
    unfold tripBatteryUsed
    positivity
  have hstart_lo : (30 : ℚ) ≤ tripStartBattery u := by
    unfold tripStartBattery
    nlinarith
  have hstart_hi : tripStartBattery u ≤ 90 := by
    unfold tripStartBattery
    nlinarith
  refine ⟨le_max_left _ _, ?_, hstart_hi, hstart_lo, rfl, rfl⟩
  unfold tripEndBattery
  exact max_le (by linarith) (by linarith)

/-- Witness for the battery-bounds theorem at a concrete input (a 1 km route
with the fallback vehicle profile and draw `1/2`). -/
theorem battery_bounds_witness :
    5 ≤ tripEndBattery ⟨[], 0, 1000⟩ defaultEV (1 / 2) :=
  (battery_bounds ⟨[], 0, 1000⟩ defaultEV (1 / 2) (by norm_num) (by norm_num)
    (by norm_num) (by norm_num [defaultEV])).1

/-- Helper: the id of a generated city station is `station-(startId + i)`,
independently of the PRNG and the `Math` primitives. -/
theorem genCityStation_id (M : MathPrims) (g : RNG σ) (cityName : String)
    (cx cy : ℚ) (startId i : ℕ) (s : σ) :
    ((genCityStation M g cityName cx cy startId i s).1).id
      = "station-" ++ toString (startId + i) := rfl

/-- Helper: the id of a generated highway station is `highway-i`. -/
theorem genHighwayStation_id (g : RNG σ) (hname : String) (hx hy : ℚ)
    (i : ℕ) (s : σ) :
    ((genHighwayStation g hname hx hy i s).1).id = "highway-" ++ toString i := rfl

/-- Helper: the ids produced by the city-station loop form the range
`station-(startId + i) ..`, independently of the generator state. -/
theorem genCityLoop_ids (M : MathPrims) (g : RNG σ) (cityName : String)
    (cx cy : ℚ) (startId : ℕ) :
    ∀ (n i : ℕ) (s : σ),
      ((genCityLoop M g cityName cx cy startId n i s).1).map CS.id
        = (List.range n).map fun k => "station-" ++ toString (startId + (i + k))
  | 0, _, _ => by simp [genCityLoop]
  | n + 1, i, s => by
    have ih := genCityLoop_ids M g cityName cx cy startId n (i + 1)
      ((genCityStation M g cityName cx cy startId i s).2)
    simp only [genCityLoop, List.map_cons, genCityStation_id]
    rw [ih, List.range_succ_eq_map, List.map_cons, List.map_map]
    congr 1
    refine List.map_congr_left fun a _ => ?_
    exact congrArg (fun m => "station-" ++ toString m) (by omega)

/-- Helper: the ids produced by the highway loop form the range
`highway-i ..`. -/
theorem genHighwaysLoop_ids (g : RNG σ) :
    ∀ (l : List (String × ℚ × ℚ)) (i : ℕ) (s : σ),
      ((genHighwaysLoop g l i s).1).map CS.id
        = (List.range l.length).map fun k => "highway-" ++ toString (i + k)
  | [], _, _ => by simp [genHighwaysLoop]
  | h :: rest, i, s => by
    have ih := genHighwaysLoop_ids g rest (i + 1)
      ((genHighwayStation g h.1 h.2.1 h.2.2 i s).2)
    simp only [genHighwaysLoop, List.map_cons, genHighwayStation_id, List.length_cons]
    rw [ih, List.range_succ_eq_map, List.map_cons, List.map_map]
    congr 1
    refine List.map_congr_left fun a _ => ?_
    exact congrArg (fun m => "highway-" ++ toString m) (by omega)

/-- Helper: the ids of the cities fold are `cityIdList`. -/
theorem genCitiesLoop_ids (M : MathPrims) (g : RNG σ) :
    ∀ (l : List CityHub) (sid : ℕ) (s : σ),
      ((genCitiesLoop M g l sid s).1).map CS.id = cityIdList l sid
  | [], _, _ => by simp [genCitiesLoop, cityIdList]
  | c :: rest, sid, s => by
    simp only [genCitiesLoop, cityIdList, List.map_append, generateStationsAroundCity]
    rw [genCitiesLoop_ids M g rest (sid + c.density) _]
    congr 1
    have h := genCityLoop_ids M g c.name c.lng c.lat sid c.density 0 s
    simpa using h

/-- Helper: the id sequence of the full generated station set is a fixed
closed list, independent of the PRNG, its starting state, and the `Math`
primitives. -/
theorem generateChargingStations_ids (M : MathPrims) (g : RNG σ) (s : σ) :
    ((generateChargingStations M g s).1).map CS.id
      = cityIdList cityHubs 0 ++
        ((List.range highwayPoints.length).map fun k => "highway-" ++ toString k) := by
  simp only [generateChargingStations, List.map_append]
  rw [genCitiesLoop_ids, genHighwaysLoop_ids]
  simp

set_option maxHeartbeats 2000000 in
/-- Helper: the numeric keys of the 176 generated ids are pairwise distinct. -/
theorem idList_keys_nodup :
    (((cityIdList cityHubs 0) ++
      ((List.range highwayPoints.length).map fun k => "highway-" ++ toString k)).map
        idKey).Nodup := by
  decide

/-- Claim C9: station ids are unique across both generation passes — the id
sequence of the full generated set (city `station-N` ids followed by highway
`highway-N` ids, assigned sequentially per pass) has no duplicates, for every
PRNG, starting state and choice of `Math` primitives. -/
theorem station_ids_nodup (M : MathPrims) (g : RNG σ) (s : σ) :
    (((generateChargingStations M g s).1).map CS.id).Nodup := by
  rw [generateChargingStations_ids]
  exact List.Nodup.of_map idKey idList_keys_nodup

/-- Helper: the state left behind by the cities fold on a cons cell. -/
theorem genCitiesLoop_cons_state (M : MathPrims) (g : RNG σ) (c : CityHub)
    (rest : List CityHub) (sid : ℕ) (s : σ) :
    (genCitiesLoop M g (c :: rest) sid s).2
      = (genCitiesLoop M g rest (sid + c.density)
          ((generateStationsAroundCity M g c.name c.lng c.lat c.density sid s).2)).2 := rfl

/-- Helper: the cities fold leaves the state unchanged on the empty list. -/
theorem genCitiesLoop_nil_state (M : MathPrims) (g : RNG σ) (sid : ℕ) (s : σ) :
    (genCitiesLoop M g [] sid s).2 = s := rfl

/-- Claim C1 (counterexample): calling `generateChargingStations` of
`chargingStations.ts` twice in one process does not reproduce the output: the
module-level PRNG closure keeps its state across calls, and already the first
station of the second call has a different type (`superfast` instead of
`fast`).  The stand-in `Math` primitives `mathM0` affect only coordinate
values, not the station type compared here. -/
theorem generateChargingStations_second_call_differs :
    ((generateChargingStations mathM0 lcgRNG
        ((generateChargingStations mathM0 lcgRNG 123).2)).1.head?.map CS.stype)
      ≠ ((generateChargingStations mathM0 lcgRNG 123).1.head?.map CS.stype) := by
  have hc0 : (generateStationsAroundCity mathM0 lcgRNG "Amsterdam" 4.895168 52.370216 25 0 (123 : ℕ)).2 = 1325880394 := by
    with_unfolding_all decide
  have hc1 : (generateStationsAroundCity mathM0 lcgRNG "Rotterdam" 4.462456 51.926517 20 25 (1325880394 : ℕ)).2 = 1241873694 := by
    with_unfolding_all decide
  have hc2 : (generateStationsAroundCity mathM0 lcgRNG "The Hague" 4.288788 52.078663 18 45 (1241873694 : ℕ)).2 = 1010615885 := by
    with_unfolding_all decide
  have hc3 : (generateStationsAroundCity mathM0 lcgRNG "Utrecht" 5.104480 52.092876 18 63 (1010615885 : ℕ)).2 = 414651649 := by
    with_unfolding_all decide
  have hc4 : (generateStationsAroundCity mathM0 lcgRNG "Eindhoven" 5.47778 51.44083 15 81 (414651649 : ℕ)).2 = 1528074242 := by
    with_unfolding_all decide
  have hc5 : (generateStationsAroundCity mathM0 lcgRNG "Groningen" 6.56667 53.21917 12 96 (1528074242 : ℕ)).2 = 1575429636 := by
    with_unfolding_all decide
  have hc6 : (generateStationsAroundCity mathM0 lcgRNG "Tilburg" 5.0913 51.55551 10 108 (1575429636 : ℕ)).2 = 297171655 := by
    with_unfolding_all decide
  have hc7 : (generateStationsAroundCity mathM0 lcgRNG "Almere" 5.222124 52.371353 12 118 (297171655 : ℕ)).2 = 1333385089 := by
    with_unfolding_all decide
  have hc8 : (generateStationsAroundCity mathM0 lcgRNG "Breda" 4.768323 51.571915 10 130 (1333385089 : ℕ)).2 = 182973130 := by
    with_unfolding_all decide
  have hc9 : (generateStationsAroundCity mathM0 lcgRNG "Nijmegen" 5.8528 51.8425 10 140 (182973130 : ℕ)).2 = 1587829050 := by
    with_unfolding_all decide
  have hcities : (genCitiesLoop mathM0 lcgRNG cityHubs 0 123).2 = 1587829050 := by
    simp only [cityHubs, genCitiesLoop_cons_state, genCitiesLoop_nil_state]
    rw [hc0, hc1, hc2, hc3, hc4, hc5, hc6, hc7, hc8, hc9]
  have hh : (genHighwaysLoop lcgRNG highwayPoints 0 (1587829050 : ℕ)).2 = 419932942 := by
    with_unfolding_all decide
  have hstate : (generateChargingStations mathM0 lcgRNG 123).2 = 419932942 := by
    rw [show (generateChargingStations mathM0 lcgRNG 123).2
        = (genHighwaysLoop lcgRNG highwayPoints 0
            (genCitiesLoop mathM0 lcgRNG cityHubs 0 123).2).2 from rfl]
    rw [hcities]
    exact hh
  have hhead1 : (generateChargingStations mathM0 lcgRNG 123).1.head?
      = some (genCityStation mathM0 lcgRNG "Amsterdam" 4.895168 52.370216 0 0 (123 : ℕ)).1 := rfl
  have hhead2 : (generateChargingStations mathM0 lcgRNG (419932942 : ℕ)).1.head?
      = some (genCityStation mathM0 lcgRNG "Amsterdam" 4.895168 52.370216 0 0 (419932942 : ℕ)).1 := rfl
  rw [hstate, hhead2, hhead1]
  with_unfolding_all decide

/-- Claim C1 (amended): two calls of the station generator always agree on
the id sequence (ids and their order are PRNG-independent), but the remaining
fields may differ because the module-level PRNG advances across calls; full
two-run determinism holds for the precomputation script's version, which
re-seeds (`seededRandom(123)`) inside the function, so each of its calls
equals the fresh seed-123 run of the shared body. -/
theorem generateChargingStations_determinism {σ₁ σ₂ : Type} (M₁ M₂ M : MathPrims)
    (g₁ : RNG σ₁) (g₂ : RNG σ₂) (s₁ : σ₁) (s₂ : σ₂) :
    ((generateChargingStations M₁ g₁ s₁).1).map CS.id
        = ((generateChargingStations M₂ g₂ s₂).1).map CS.id ∧
    generateChargingStationsScript M = (generateChargingStations M lcgRNG 123).1 := by
  refine ⟨?_, rfl⟩
  rw [generateChargingStations_ids, generateChargingStations_ids]

/-- Helper: the stub sort keeps its input unchanged, hence permutes it. -/
theorem sortStub_perm (g : RNG σ) (l : List CS) (s : σ) :
    ((sortStub g l s).1).Perm l := List.Perm.refl l

/-- Claim C3 (amended): rule 2 of the route-network generator gives each
non-highway station, on a PRNG draw `≤ 0.3`, one `roadtrip` edge of fixed
weight 2 to the head of the PRNG-reordered list of highway stations closer
than 40 km — some in-window highway station, not necessarily the nearest —
and on a draw `> 0.3` it adds no edge for that station.  Stated for every
permutation-valued behaviour of the random-comparator sort. -/
theorem rule2_edges_spec (M : MathPrims) (sortR : SortFn σ) (g : RNG σ)
    (hperm : ∀ (l : List CS) (t : σ), ((sortR l t).1).Perm l) :
    (∀ (hws citys : List CS) (s : σ) (e : EVRoute), e ∈ (rule2 M sortR hws g citys s).1 →
      e.tripType = .roadtrip ∧ e.weight = 2 ∧ e.fromSt ∈ citys ∧ e.toSt ∈ hws ∧
        getDistance M e.fromSt.coord e.toSt.coord < 40) ∧
    (∀ (hws : List CS) (c : CS) (s : σ), (g.next s).1 > 0.3 →
      (rule2Step M sortR hws g c s).1 = []) := by
  constructor
  · intro hws citys
    induction citys with
    | nil => intro s e he; simp [rule2] at he
    | cons c rest ih =>
      intro s e he
      simp only [rule2, List.mem_append] at he
      rcases he with he | he
      · simp only [rule2Step] at he
        split at he
        · simp at he
        · split at he
          · rename_i h hh
            simp only [List.mem_singleton] at he
            subst he
            refine ⟨rfl, rfl, List.mem_cons_self _ _, ?_, ?_⟩
            · have hm : h ∈ (sortR (hws.filter fun h' =>
                  decide (getDistance M c.coord h'.coord < 40)) ((g.next s).2)).1 := by
                exact List.mem_of_mem_head? (by rw [hh]; exact rfl)
              have := (hperm _ _).mem_iff.mp hm
              exact (List.mem_filter.mp this).1
            · have hm : h ∈ (sortR (hws.filter fun h' =>
                  decide (getDistance M c.coord h'.coord < 40)) ((g.next s).2)).1 := by
                exact List.mem_of_mem_head? (by rw [hh]; exact rfl)
              have := (hperm _ _).mem_iff.mp hm
              have hp := (List.mem_filter.mp this).2
              exact of_decide_eq_true hp
          · simp at he
      · obtain ⟨h1, h2, h3, h4, h5⟩ := ih _ e he
        exact ⟨h1, h2, List.mem_cons_of_mem _ h3, h4, h5⟩
  · intro hws c s h
    simp only [rule2Step]
    rw [if_pos h]

/-- Witness for the rule-2 theorem: the skip branch at a concrete input (draw
`1/2 > 0.3` adds no edge). -/
theorem rule2_edges_spec_witness :
    (rule2Step mathM0 (sortStub (rngConst (1 / 2))) [] (rngConst (1 / 2))
        ⟨"station-0", "C", 0, 0, 2, .standard, "", 0⟩ ()).1 = [] :=
  (rule2_edges_spec mathM0 (sortStub (rngConst (1 / 2))) (rngConst (1 / 2))
      (fun l t => sortStub_perm _ l t)).2
    [] ⟨"station-0", "C", 0, 0, 2, .standard, "", 0⟩ () (by norm_num [rngConst])

/-- Claim C3 (counterexample): rule 2 does not connect a city station to its
nearest in-window highway station: it filters the highway stations closer
than 40 km and takes the head after the random-comparator sort.  Here the
city station `station-0` has two highway stations within 40 km — `highway-1`
at ≈ 3.9 km and `highway-0` at ≈ 24.3 km (under the stand-in distance
semantics) — and the generated edge goes to the farther `highway-0`, because
it precedes the nearer one in the station list and the sort keeps the order. -/
theorem rule2_not_nearest :
    ((generateEVRouteNetworkScript mathM0 (sortStub (rngConst (1 / 10)))
        [⟨"station-0", "C0", 0, 0, 2, .standard, "", 0⟩,
         ⟨"highway-0", "HF", 0, 5, 6, .fast, "", 0⟩,
         ⟨"highway-1", "HN", 0, 2, 6, .fast, "", 0⟩] (rngConst (1 / 10)) ()).1
      = [⟨⟨"station-0", "C0", 0, 0, 2, .standard, "", 0⟩,
          ⟨"highway-0", "HF", 0, 5, 6, .fast, "", 0⟩, .roadtrip, 2⟩]) ∧
    getDistance mathM0 (0, 0) (0, 2) < getDistance mathM0 (0, 0) (0, 5) ∧
    getDistance mathM0 (0, 0) (0, 5) < 40 := by
  with_unfolding_all decide

/-- Helper: each edge pushed by the rule-1 inner loop goes from the given
station to a highway member of the sliced candidate list, is a `roadtrip`,
and — for PRNG draws in `[0, 1)` — has weight in `{3, 4, 5, 6}`. -/
theorem rule1Targets_mem (g : RNG σ) (station : CS)
    (hrange : ∀ t : σ, 0 ≤ (g.next t).1 ∧ (g.next t).1 < 1) :
    ∀ (l : List CS) (s : σ) (e : EVRoute), e ∈ (rule1Targets g station l s).1 →
      e.fromSt = station ∧ e.tripType = .roadtrip ∧ e.toSt ∈ l ∧
        isHighway e.toSt = true ∧ 3 ≤ e.weight ∧ e.weight ≤ 6
  | [], s, e => by simp [rule1Targets]
  | t :: rest, s, e => by
    intro he
    simp only [rule1Targets] at he
    split at he
    · rename_i ht
      simp only [List.mem_cons] at he
      rcases he with rfl | he
      · obtain ⟨h0, h1⟩ := hrange s
        have hf0 : (0 : ℤ) ≤ ⌊(g.next s).1 * 4⌋ := Int.floor_nonneg.mpr (by positivity)
        have hf1 : ⌊(g.next s).1 * 4⌋ < 4 := Int.floor_lt.mpr (by push_cast; nlinarith)
        refine ⟨rfl, rfl, List.mem_cons_self _ _, ht, ?_, ?_⟩
        · show (3 : ℤ) ≤ 3 + ⌊(g.next s).1 * 4⌋
          omega
        · show (3 : ℤ) + ⌊(g.next s).1 * 4⌋ ≤ 6
          omega
      · obtain ⟨h1, h2, h3, h4, h5, h6⟩ := rule1Targets_mem g station hrange rest _ e he
        exact ⟨h1, h2, List.mem_cons_of_mem _ h3, h4, h5, h6⟩
    · obtain ⟨h1, h2, h3, h4, h5, h6⟩ := rule1Targets_mem g station hrange rest s e he
      exact ⟨h1, h2, List.mem_cons_of_mem _ h3, h4, h5, h6⟩

/-- Helper: the rule-1 inner loop pushes at most one edge per candidate. -/
theorem rule1Targets_len (g : RNG σ) (station : CS) :
    ∀ (l : List CS) (s : σ), (rule1Targets g station l s).1.length ≤ l.length
  | [], _ => by simp [rule1Targets]
  | t :: rest, s => by
    simp only [rule1Targets]
    split
    · simpa using Nat.succ_le_succ (rule1Targets_len g station rest _)
    · exact Nat.le_succ_of_le (rule1Targets_len g station rest s)

/-- Claim C4 (amended): rule 1 of the route-network generator filters, for
each highway station, all stations (city and highway alike) in the 20–80 km
window, reorders them with the random-comparator sort, slices the first 3,
and creates a `roadtrip` edge — weight `3 + ⌊u·4⌋ ∈ {3,4,5,6}` for draws in
`[0,1)` — only for the highway stations among those 3.  Hence every rule-1
edge joins two highway stations 20–80 km apart, at most 3 edges originate
per station — but possibly fewer than 3, even none, when city stations
occupy the slice (see the counterexample). -/
theorem rule1_edges_spec (M : MathPrims) (sortR : SortFn σ) (g : RNG σ)
    (hperm : ∀ (l : List CS) (t : σ), ((sortR l t).1).Perm l)
    (hrange : ∀ t : σ, 0 ≤ (g.next t).1 ∧ (g.next t).1 < 1) :
    ∀ (stations hws : List CS) (s : σ),
      (∀ e ∈ (rule1 M sortR stations g hws s).1,
        e.tripType = .roadtrip ∧ 3 ≤ e.weight ∧ e.weight ≤ 6 ∧ e.fromSt ∈ hws ∧
          isHighway e.toSt = true ∧ 20 ≤ getDistance M e.fromSt.coord e.toSt.coord ∧
          getDistance M e.fromSt.coord e.toSt.coord ≤ 80) ∧
      (rule1 M sortR stations g hws s).1.length ≤ 3 * hws.length := by
  intro stations hws
  induction hws with
  | nil => intro s; exact ⟨by simp [rule1], by simp [rule1]⟩
  | cons h rest ih =>
    intro s
    constructor
    · intro e he
      simp only [rule1, List.mem_append] at he
      rcases he with he | he
      · simp only [rule1Step, findNearbyStations] at he
        obtain ⟨h1, h2, h3, h4, h5, h6⟩ := rule1Targets_mem g h hrange _ _ e he
        have hmem : e.toSt ∈ (sortR (stations.filter fun t =>
            decide (t.id ≠ h.id ∧ 20 ≤ getDistance M h.coord t.coord ∧
              getDistance M h.coord t.coord ≤ 80)) s).1 :=
          List.take_subset 3 _ h3
        have hfil := (hperm _ _).mem_iff.mp hmem
        have hp := of_decide_eq_true (List.mem_filter.mp hfil).2
        subst h1
        exact ⟨h2, h5, h6, List.mem_cons_self _ _, h4, hp.2.1, hp.2.2⟩
      · obtain ⟨h1, h2, h3, h4, h5, h6, h7⟩ := ((ih _).1) e he
        exact ⟨h1, h2, h3, List.mem_cons_of_mem _ h4, h5, h6, h7⟩
    · simp only [rule1, List.length_append, List.length_cons]
      have hstep : (rule1Step M sortR stations g h s).1.length ≤ 3 := by
        simp only [rule1Step, findNearbyStations]
        calc (rule1Targets g h ((sortR _ _).1.take 3) _).1.length
            ≤ ((sortR _ _).1.take 3).length := rule1Targets_len g h _ _
          _ ≤ 3 := by simp [List.length_take]
      have := (ih ((rule1Step M sortR stations g h s).2)).2
      omega

/-- Witness for the rule-1 theorem at a concrete input: with one highway
station (whose window is empty), the per-station cap gives at most 3 edges. -/
theorem rule1_edges_spec_witness :
    (rule1 mathM0 (sortStub (rngConst (1 / 2)))
        [⟨"highway-0", "H", 0, 0, 6, .fast, "", 0⟩] (rngConst (1 / 2))
        [⟨"highway-0", "H", 0, 0, 6, .fast, "", 0⟩] ()).1.length ≤
      3 * ([⟨"highway-0", "H", 0, 0, 6, .fast, "", 0⟩] : List CS).length :=
  (rule1_edges_spec mathM0 (sortStub (rngConst (1 / 2))) (rngConst (1 / 2))
      (fun l t => sortStub_perm _ l t)
      (fun _ => ⟨by norm_num [rngConst], by norm_num [rngConst]⟩)
      [⟨"highway-0", "H", 0, 0, 6, .fast, "", 0⟩]
      [⟨"highway-0", "H", 0, 0, 6, .fast, "", 0⟩] ()).2

/-- Claim C4 (counterexample): "whenever at least 3 other highway stations
lie in the 20–80 km window, exactly 3 highway-corridor edges originate from
that station" fails: the window filter of rule 1 also admits city stations,
and the highway test is applied only after slicing the first 3.  Here
`highway-3` has 3 other highway stations in its window, but the 3 city
stations precede them in the list (as the full city-first station set does),
the order-keeping sort leaves them in front, and zero corridor edges
originate from `highway-3`. -/
theorem rule1_crowded_out :
    (((([⟨"station-0", "C1", 0, 5, 2, .standard, "", 0⟩,
         ⟨"station-1", "C2", 0, 5, 2, .standard, "", 0⟩,
         ⟨"station-2", "C3", 0, 5, 2, .standard, "", 0⟩,
         ⟨"highway-0", "H1", 0, 8, 6, .fast, "", 0⟩,
         ⟨"highway-1", "H2", 0, 8, 6, .fast, "", 0⟩,
         ⟨"highway-2", "H3", 0, 8, 6, .fast, "", 0⟩,
         ⟨"highway-3", "H0", 0, 0, 6, .fast, "", 0⟩] : List CS).filter fun t =>
        decide (t.id ≠ "highway-3" ∧
          20 ≤ getDistance mathM0 (0, 0) t.coord ∧
          getDistance mathM0 (0, 0) t.coord ≤ 80)).filter isHighway).length = 3) ∧
    ((generateEVRouteNetworkScript mathM0 (sortStub (rngConst (1 / 2)))
        [⟨"station-0", "C1", 0, 5, 2, .standard, "", 0⟩,
         ⟨"station-1", "C2", 0, 5, 2, .standard, "", 0⟩,
         ⟨"station-2", "C3", 0, 5, 2, .standard, "", 0⟩,
         ⟨"highway-0", "H1", 0, 8, 6, .fast, "", 0⟩,
         ⟨"highway-1", "H2", 0, 8, 6, .fast, "", 0⟩,
         ⟨"highway-2", "H3", 0, 8, 6, .fast, "", 0⟩,
         ⟨"highway-3", "H0", 0, 0, 6, .fast, "", 0⟩] (rngConst (1 / 2)) ()).1.filter
      fun e => e.fromSt.id == "highway-3") = [] := by
  with_unfolding_all decide

/-- Helper: the incoming seen set survives into the final seen set of the
pair-collection fold. -/
theorem seenAfter_subset :
    ∀ (routes : List EVRoute) (seen : List String), seen ⊆ seenAfter routes seen
  | [], seen => by simp [seenAfter]
  | r :: rest, seen => by
    intro x hx
    simp only [seenAfter]
    refine seenAfter_subset rest _ ?_
    split
    · split
      · exact hx
      · exact List.mem_cons_of_mem _ hx
    · split
      · exact List.mem_cons_of_mem _ hx
      · exact List.mem_cons_of_mem _ (List.mem_cons_of_mem _ hx)

/-- Helper: both keys of every demand edge end up in the final seen set. -/
theorem seenAfter_covers :
    ∀ (routes : List EVRoute) (seen : List String) (r : EVRoute), r ∈ routes →
      getRouteKey r.fromSt.id r.toSt.id ∈ seenAfter routes seen ∧
      getRouteKey r.toSt.id r.fromSt.id ∈ seenAfter routes seen
  | [], _, r => by simp
  | r0 :: rest, seen, r => by
    intro hr
    rcases List.mem_cons.mp hr with rfl | hr
    · simp only [seenAfter]
      by_cases hk : getRouteKey r.fromSt.id r.toSt.id ∈ seen
      · rw [if_pos hk]
        by_cases hrk : getRouteKey r.toSt.id r.fromSt.id ∈ seen
        · rw [if_pos hrk]
          exact ⟨seenAfter_subset rest _ hk, seenAfter_subset rest _ hrk⟩
        · rw [if_neg hrk]
          exact ⟨seenAfter_subset rest _ (List.mem_cons_of_mem _ hk),
            seenAfter_subset rest _ (List.mem_cons_self _ _)⟩
      · rw [if_neg hk]
        by_cases hrk : getRouteKey r.toSt.id r.fromSt.id ∈
            getRouteKey r.fromSt.id r.toSt.id :: seen
        · rw [if_pos hrk]
          exact ⟨seenAfter_subset rest _ (List.mem_cons_self _ _),
            seenAfter_subset rest _ hrk⟩
        · rw [if_neg hrk]
          exact ⟨seenAfter_subset rest _
              (List.mem_cons_of_mem _ (List.mem_cons_self _ _)),
            seenAfter_subset rest _ (List.mem_cons_self _ _)⟩
    · simp only [seenAfter]
      exact seenAfter_covers rest _ r hr

/-- Helper: everything in the final seen set is either in the incoming seen
set or among the keys of the collected pairs. -/
theorem seenAfter_mem_keys :
    ∀ (routes : List EVRoute) (seen : List String) (x : String),
      x ∈ seenAfter routes seen →
      x ∈ seen ∨ x ∈ (collectRoutePairsAux routes seen).map RoutePair.key
  | [], _, _ => fun hx => Or.inl hx
  | r0 :: rest, seen, x => by
    intro hx
    simp only [seenAfter] at hx
    simp only [collectRoutePairsAux]
    by_cases hk : getRouteKey r0.fromSt.id r0.toSt.id ∈ seen
    · rw [if_pos hk] at hx ⊢
      by_cases hrk : getRouteKey r0.toSt.id r0.fromSt.id ∈ seen
      · rw [if_pos hrk] at hx ⊢
        rcases seenAfter_mem_keys rest _ x hx with hx2 | hx2
        · exact Or.inl hx2
        · right
          simpa using hx2
      · rw [if_neg hrk] at hx ⊢
        rcases seenAfter_mem_keys rest _ x hx with hx2 | hx2
        · rcases List.mem_cons.mp hx2 with rfl | hx3
          · right
            simp
          · exact Or.inl hx3
        · right
          simp [hx2]
    · rw [if_neg hk] at hx ⊢
      by_cases hrk : getRouteKey r0.toSt.id r0.fromSt.id ∈
          getRouteKey r0.fromSt.id r0.toSt.id :: seen
      · rw [if_pos hrk] at hx ⊢
        rcases seenAfter_mem_keys rest _ x hx with hx2 | hx2
        · rcases List.mem_cons.mp hx2 with rfl | hx3
          · right
            simp
          · exact Or.inl hx3
        · right
          simp [hx2]
      · rw [if_neg hrk] at hx ⊢
        rcases seenAfter_mem_keys rest _ x hx with hx2 | hx2
        · rcases List.mem_cons.mp hx2 with rfl | hx3
          · right
            simp
          · rcases List.mem_cons.mp hx3 with rfl | hx4
            · right
              simp
            · exact Or.inl hx4
        · right
          simp [hx2]

/-- Claim C2 (amended): the precomputation driver's edge list (rules 1–4) is
a prefix of the edge list generated by the precomputed-JSON trip-expansion
path (`part_006`), which appends extra Amsterdam/Rotterdam rules after the
shared rules; and the unique ordered-pair set the driver derives from a
demand-edge list contains both the natural direction and the reverse key of
every edge of that list.  The driver therefore covers every lookup of a
rule-1–4 edge, but not the extra-rule edges of the precomputed-JSON path
(see the counterexample). -/
theorem routePairs_cover_both_directions (M : MathPrims) (sortR : SortFn σ)
    (stations : List CS) (g : RNG σ) (s : σ) (routes : List EVRoute)
    (r : EVRoute) (hr : r ∈ routes) :
    (generateEVRouteNetworkScript M sortR stations g s).1 <+:
        (generateEVRouteNetworkPre M sortR stations g s).1 ∧
    getRouteKey r.fromSt.id r.toSt.id ∈ (collectRoutePairs routes).map RoutePair.key ∧
    getRouteKey r.toSt.id r.fromSt.id ∈ (collectRoutePairs routes).map RoutePair.key := by
  refine ⟨?_, ?_, ?_⟩
  · simp only [generateEVRouteNetworkScript, generateEVRouteNetworkPre]
    exact List.prefix_append _ _
  · have h := (seenAfter_covers routes [] r hr).1
    rcases seenAfter_mem_keys routes [] _ h with h2 | h2
    · simp at h2
    · exact h2
  · have h := (seenAfter_covers routes [] r hr).2
    rcases seenAfter_mem_keys routes [] _ h with h2 | h2
    · simp at h2
    · exact h2

/-- Witness for the pair-coverage theorem at a concrete input: for a
one-edge list both direction keys are collected. -/
theorem routePairs_cover_witness :
    getRouteKey "station-0" "station-1" ∈
      (collectRoutePairs [⟨⟨"station-0", "A", 0, 0, 2, .standard, "", 0⟩,
        ⟨"station-1", "B", 0, 1, 2, .standard, "", 0⟩, .commuter, 1⟩]).map RoutePair.key :=
  (routePairs_cover_both_directions mathM0 (sortStub (rngConst 0)) []
    (rngConst 0) () _ _ (List.mem_singleton.mpr rfl)).2.1

/-- Claim C2 (counterexample): the precomputation pipeline does not generate
the same demand-edge list as the precomputed-JSON trip-expansion path.  On a
station set of two Amsterdam-named city stations too far apart for any
rule-1–4 window, the script's rules produce no edges — so it resolves and
persists no route keys — while `part_006`'s extra intra-Amsterdam commuter
rule still creates the edges `station-0 → station-1` and
`station-1 → station-0`, whose keys the trip expander then looks up and
misses. -/
theorem precompute_misses_live_edges :
    ((generateEVRouteNetworkScript mathM0 (sortStub (rngConst (1 / 2)))
        [⟨"station-0", "Amsterdam Noord 1", 0, 0, 2, .standard, "", 0⟩,
         ⟨"station-1", "Amsterdam Zuid 2", 0, 10, 2, .standard, "", 0⟩]
        (rngConst (1 / 2)) ()).1 = []) ∧
    ((collectRoutePairs ((generateEVRouteNetworkScript mathM0 (sortStub (rngConst (1 / 2)))
        [⟨"station-0", "Amsterdam Noord 1", 0, 0, 2, .standard, "", 0⟩,
         ⟨"station-1", "Amsterdam Zuid 2", 0, 10, 2, .standard, "", 0⟩]
        (rngConst (1 / 2)) ()).1)).map RoutePair.key = []) ∧
    ((generateEVRouteNetworkPre mathM0 (sortStub (rngConst (1 / 2)))
        [⟨"station-0", "Amsterdam Noord 1", 0, 0, 2, .standard, "", 0⟩,
         ⟨"station-1", "Amsterdam Zuid 2", 0, 10, 2, .standard, "", 0⟩]
        (rngConst (1 / 2)) ()).1.map fun e => getRouteKey e.fromSt.id e.toSt.id)
      = ["station-0-station-1", "station-1-station-0"] := by
  with_unfolding_all decide

/-- Helper: mapping a function of the index over an enumerated list is
mapping it over the index range. -/
theorem enum_map_fst_fun {α β : Type} (l : List α) (f : ℕ → β) :
    l.enum.map (fun ci => f ci.1) = (List.range l.length).map f := by
  have h : (fun ci : ℕ × α => f ci.1) = f ∘ Prod.fst := rfl
  rw [h, ← List.map_map, List.enum_map_fst]

/-- Helper: the timestamps of a generated trip are
`startTime + i * timePerStep` over the waypoint indices. -/
theorem trip_waypoints_timestamps (route : RouteGeometry) (startTime : ℚ)
    (ev : EVType) (tid : ℕ) (evR : EVRoute) (g : RNG σ) (s : σ) :
    ((generateEVTripFromRoute route startTime ev tid evR g s).1.waypoints.map
        TripWaypoint.timestamp)
      = (List.range route.coordinates.length).map
          (fun i : ℕ => startTime + (i : ℚ) *
            (if 1 < route.coordinates.length
             then tripScaledDuration route ev / ((route.coordinates.length - 1 : ℕ) : ℚ)
             else 0)) := by
  simp only [generateEVTripFromRoute]
  rw [List.map_map]
  show route.coordinates.enum.map
      (fun ci => (fun i : ℕ => startTime + (i : ℚ) *
        (if 1 < route.coordinates.length
         then tripScaledDuration route ev / ((route.coordinates.length - 1 : ℕ) : ℚ)
         else 0)) ci.1) = _
  exact enum_map_fst_fun route.coordinates
    (fun i : ℕ => startTime + (i : ℚ) *
      (if 1 < route.coordinates.length
       then tripScaledDuration route ev / ((route.coordinates.length - 1 : ℕ) : ℚ)
       else 0))

/-- Helper: a map of a step-monotone index function over a range is a
`≤`-chain. -/
theorem chain_le_range_map (f : ℕ → ℚ) (hf : ∀ i, f i ≤ f (i + 1)) (n : ℕ) :
    ((List.range n).map f).Chain' (· ≤ ·) := by
  rw [List.chain'_map]
  cases n with
  | zero => simp
  | succ m => exact (List.chain'_range_succ _ _).mpr fun i _ => hf i

/-- Helper: head of a mapped range. -/
theorem head_range_map {β : Type} (f : ℕ → β) (n : ℕ) (hn : 0 < n) :
    ((List.range n).map f).head? = some (f 0) := by
  cases n with
  | zero => omega
  | succ m =>
    rw [List.range_succ_eq_map]
    simp

/-- Helper: last element of a mapped range. -/
theorem getLast_range_map {β : Type} (f : ℕ → β) (n : ℕ) (hn : 1 ≤ n) :
    ((List.range n).map f).getLast? = some (f (n - 1)) := by
  cases n with
  | zero => omega
  | succ m =>
    rw [List.range_succ, List.map_append]
    simp

/-- Helper: per-trip timestamp facts — the timestamps of one generated trip
are non-decreasing, start at `startTime`, and (with at least two waypoints)
end at `startTime + scaledDuration`; they are not wrapped modulo the loop
length. -/
theorem generateEVTripFromRoute_timestamps (route : RouteGeometry)
    (startTime : ℚ) (ev : EVType) (tid : ℕ) (evR : EVRoute) (g : RNG σ) (s : σ)
    (hd : 0 ≤ route.duration) (hm : 0 < ev.speedMult) :
    ((generateEVTripFromRoute route startTime ev tid evR g s).1.waypoints.map
        TripWaypoint.timestamp).Chain' (· ≤ ·) ∧
    (route.coordinates ≠ [] →
      ((generateEVTripFromRoute route startTime ev tid evR g s).1.waypoints.map
          TripWaypoint.timestamp).head? = some startTime) ∧
    (2 ≤ route.coordinates.length →
      ((generateEVTripFromRoute route startTime ev tid evR g s).1.waypoints.map
          TripWaypoint.timestamp).getLast?
        = some (startTime + tripScaledDuration route ev)) := by
  have hscaled : 0 ≤ tripScaledDuration route ev := by
    unfold tripScaledDuration
    positivity
  have htps : 0 ≤ (if 1 < route.coordinates.length
      then tripScaledDuration route ev / ((route.coordinates.length - 1 : ℕ) : ℚ)
      else 0) := by
    split
    · positivity
    · exact le_refl 0
  refine ⟨?_, ?_, ?_⟩
  · rw [trip_waypoints_timestamps]
    refine chain_le_range_map _ (fun i => ?_) _
    have hcast : ((i : ℚ)) ≤ ((i + 1 : ℕ) : ℚ) := by
      push_cast
      linarith
    nlinarith [htps, hcast]
  · intro hne
    rw [trip_waypoints_timestamps,
      head_range_map _ _ (List.length_pos.mpr hne)]
    norm_num
  · intro hlen
    rw [trip_waypoints_timestamps,
      getLast_range_map _ _ (by omega), if_pos (by omega)]
    have hcast : ((route.coordinates.length - 1 : ℕ) : ℚ) ≠ 0 := by
      have : route.coordinates.length - 1 ≠ 0 := by omega
      exact_mod_cast this
    rw [mul_div_cancel₀ _ hcast]

/-- Helper: an indexed lookup with default is a member or the default. -/
theorem getD_mem_or {α : Type} :
    ∀ (l : List α) (n : ℕ) (d : α), l.getD n d ∈ l ∨ l.getD n d = d
  | [], _, d => by right; rfl
  | a :: l, 0, d => by left; exact List.mem_cons_self _ _
  | a :: l, n + 1, d => by
    rcases getD_mem_or l n d with h | h
    · left
      exact List.mem_cons_of_mem _ h
    · right
      exact h

/-- Helper: the eligible vehicle profiles for every trip type have positive
speed multipliers (so do all catalog entries and the fallback profile). -/
theorem eligibleEVs_speedMult_pos (tt : TripType) :
    ∀ e ∈ eligibleEVsFor tt, 0 < e.speedMult := by
  cases tt <;> with_unfolding_all decide

/-- Helper: a forward trip comes from `generateEVTripFromRoute` on the
forward geometry. -/
theorem tripForward_mem (g : RNG σ) (evR : EVRoute) (fwd : Option RouteGeometry)
    (startTime : ℚ) (ev : EVType) (tid : ℕ) (s : σ) (t : TripData)
    (ht : t ∈ (tripForward g evR fwd startTime ev tid s).1) :
    ∃ r, fwd = some r ∧ t = (generateEVTripFromRoute r startTime ev tid evR g s).1 := by
  cases fwd with
  | none => simp [tripForward] at ht
  | some r =>
    simp only [tripForward, List.mem_singleton] at ht
    exact ⟨r, rfl, ht⟩

/-- Helper: a return trip comes from `generateEVTripFromRoute` on the
reverse geometry, with a vehicle from the eligible list (or the fallback). -/
theorem tripReturn_mem (g : RNG σ) (evR : EVRoute) (rev : Option RouteGeometry)
    (eligible : List EVType) (startTime : ℚ) (tid : ℕ) (s : σ) (t : TripData)
    (ht : t ∈ (tripReturn g evR rev eligible startTime tid s).1) :
    ∃ r ev' st' s', rev = some r ∧ (ev' ∈ eligible ∨ ev' = defaultEV) ∧
      t = (generateEVTripFromRoute r st' ev' tid
        ⟨evR.toSt, evR.fromSt, evR.tripType, evR.weight⟩ g s').1 := by
  simp only [tripReturn] at ht
  split at ht
  · cases rev with
    | none => simp at ht
    | some r =>
      simp only [List.mem_singleton] at ht
      exact ⟨r, _, _, _, rfl, getD_mem_or _ _ _, ht⟩
  · simp at ht

/-- Helper: every trip produced by the inner expansion loop has
non-decreasing timestamps, given nonnegative durations of both geometries
and positive speed multipliers of the eligible profiles. -/
theorem tripInner_chain (g : RNG σ) (evR : EVRoute) (fwd rev : Option RouteGeometry)
    (eligible : List EVType) (nt : ℕ)
    (hfwd : ∀ r, fwd = some r → 0 ≤ r.duration)
    (hrev : ∀ r, rev = some r → 0 ≤ r.duration)
    (helig : ∀ e ∈ eligible, 0 < e.speedMult) :
    ∀ (fuel i tid : ℕ) (s : σ) (t : TripData),
      t ∈ (tripInner g evR fwd rev eligible nt i fuel tid s).1 →
      (t.waypoints.map TripWaypoint.timestamp).Chain' (· ≤ ·)
  | 0, _, _, _, t => by simp [tripInner]
  | fuel + 1, i, tid, s, t => by
    intro ht
    simp only [tripInner, List.mem_append] at ht
    have hevpos : ∀ ev', ev' ∈ eligible ∨ ev' = defaultEV → 0 < ev'.speedMult := by
      rintro ev' (h | rfl)
      · exact helig ev' h
      · norm_num [defaultEV]
    rcases ht with (ht | ht) | ht
    · obtain ⟨r, hr, rfl⟩ := tripForward_mem _ _ _ _ _ _ _ _ ht
      exact (generateEVTripFromRoute_timestamps _ _ _ _ _ _ _ (hfwd r hr)
        (hevpos _ (getD_mem_or _ _ _))).1
    · obtain ⟨r, ev', st', s', hr, hev, rfl⟩ := tripReturn_mem _ _ _ _ _ _ _ _ ht
      exact (generateEVTripFromRoute_timestamps _ _ _ _ _ _ _ (hrev r hr)
        (hevpos _ hev)).1
    · exact tripInner_chain g evR fwd rev eligible nt hfwd hrev helig fuel _ _ _ t ht

/-- Helper: every trip produced by the full expansion over a demand-edge
list has non-decreasing timestamps, given that every geometry in the route
table has nonnegative duration. -/
theorem tripsForRoutes_chain (g : RNG σ) (geoms : String → Option RouteGeometry)
    (hg : ∀ k r, geoms k = some r → 0 ≤ r.duration) :
    ∀ (routes : List EVRoute) (tid : ℕ) (s : σ) (t : TripData),
      t ∈ (tripsForRoutes g geoms routes tid s).1 →
      (t.waypoints.map TripWaypoint.timestamp).Chain' (· ≤ ·)
  | [], _, _, t => by simp [tripsForRoutes]
  | r :: rest, tid, s, t => by
    intro ht
    simp only [tripsForRoutes, List.mem_append] at ht
    rcases ht with ht | ht
    · exact tripInner_chain g r _ _ _ _ (fun r' h => hg _ r' h) (fun r' h => hg _ r' h)
        (eligibleEVs_speedMult_pos r.tripType) _ _ _ _ t ht
    · exact tripsForRoutes_chain g geoms hg rest _ _ t ht

/-- Claim C7 (amended): waypoint timestamps of a generated trip run linearly
and without modulo wrapping from `startTime` to
`startTime + scaledDuration`: they are non-decreasing (for nonnegative route
duration and positive speed multiplier), the first equals the trip's
`startTime`, and with at least two waypoints the last equals
`startTime + scaledDuration` — which may exceed the animation loop length
1800, since only the start time is reduced modulo the loop (see the
counterexample).  Every trip of `generateTripData` has non-decreasing
timestamps whenever all geometries in the route table have nonnegative
durations. -/
theorem trip_timestamps_spec :
    (∀ (σ : Type) (route : RouteGeometry) (startTime : ℚ) (ev : EVType)
        (tid : ℕ) (evR : EVRoute) (g : RNG σ) (s : σ),
      0 ≤ route.duration → 0 < ev.speedMult →
      ((generateEVTripFromRoute route startTime ev tid evR g s).1.waypoints.map
          TripWaypoint.timestamp).Chain' (· ≤ ·) ∧
      (route.coordinates ≠ [] →
        ((generateEVTripFromRoute route startTime ev tid evR g s).1.waypoints.map
            TripWaypoint.timestamp).head? = some startTime) ∧
      (2 ≤ route.coordinates.length →
        ((generateEVTripFromRoute route startTime ev tid evR g s).1.waypoints.map
            TripWaypoint.timestamp).getLast?
          = some (startTime + tripScaledDuration route ev))) ∧
    (∀ (σ : Type) (geoms : String → Option RouteGeometry) (evRoutes : List EVRoute)
        (g : RNG σ) (s : σ),
      (∀ k r, geoms k = some r → 0 ≤ r.duration) →
      ∀ t ∈ (generateTripData geoms evRoutes g s).1,
        (t.waypoints.map TripWaypoint.timestamp).Chain' (· ≤ ·)) := by
  constructor
  · intro σ route startTime ev tid evR g s hd hm
    exact generateEVTripFromRoute_timestamps route startTime ev tid evR g s hd hm
  · intro σ geoms evRoutes g s hg t ht
    exact tripsForRoutes_chain g geoms hg evRoutes 0 s t ht

/-- Witness for the timestamp theorem at a concrete input: a two-point
geometry with duration 60 s and the fallback profile yields a trip with
non-decreasing timestamps. -/
theorem trip_timestamps_spec_witness :
    ((generateEVTripFromRoute ⟨[(0, 0), (1, 1)], 60, 0⟩ 0 defaultEV 0
        ⟨⟨"station-0", "A", 0, 0, 2, .standard, "", 0⟩,
         ⟨"station-1", "B", 0, 1, 2, .standard, "", 0⟩, .commuter, 1⟩
        (rngConst 0) ()).1.waypoints.map TripWaypoint.timestamp).Chain' (· ≤ ·) :=
  (trip_timestamps_spec.1 Unit ⟨[(0, 0), (1, 1)], 60, 0⟩ 0 defaultEV 0
    ⟨⟨"station-0", "A", 0, 0, 2, .standard, "", 0⟩,
     ⟨"station-1", "B", 0, 1, 2, .standard, "", 0⟩, .commuter, 1⟩
    (rngConst 0) () (by norm_num) (by norm_num [defaultEV])).1

/-- Claim C7 (counterexample): waypoint timestamps do not lie within
`[0, loopLength)` after any modulo wrap — the code applies no modulo to
waypoint timestamps.  A demand edge of weight 1 whose forward geometry has a
100-minute real duration produces a single trip that starts at 10 and whose
last waypoint is stamped 2010, beyond the loop length 1800: only the trip's
start time is reduced modulo the loop. -/
theorem trip_timestamp_exceeds_loop :
    ((generateTripData
        (fun k => if k = "station-0-station-1"
          then some ⟨[(0, 0), (1, 1)], 6000, 1000⟩ else none)
        [⟨⟨"station-0", "A", 0, 0, 2, .standard, "", 0⟩,
          ⟨"station-1", "B", 0, 1, 2, .standard, "", 0⟩, .commuter, 1⟩]
        (rngConst (1 / 5)) ()).1.map fun t =>
          t.waypoints.getLast?.map TripWaypoint.timestamp)
      = [some 2010] ∧
    ¬((2010 : ℚ) < 1800) := by
  with_unfolding_all decide

end DeckglEV
